import Mathlib

/-!
Verification development for the pharmacy dispatch (devolution) QR-scan
route of the kumpels-appweb repository.

The embedding models `POST` of
`src/app/api/qr-scan/pharmacy-dispatch-devolution/route.ts` as a pure
function from a store snapshot and a request to a result and a new store
snapshot.  Each awaited Prisma call of the handler is modelled as one
read or write against the store; the phases of the handler (context
resolution, eligibility query, status-update batch, scan-record batch)
are separate definitions so that the commit points between the awaited
batches can be talked about.
-/

/-- Process status enum.  The route imports `ProcessStatus` from
`@/types/patient` (a file not shipped here); the constructor set is the
one listed in the data model (PENDING, IN_PROGRESS,
DISPATCHED_FROM_PHARMACY, DELIVERED, COMPLETED, ERROR); the route itself
uses only IN_PROGRESS and DISPATCHED_FROM_PHARMACY. -/
inductive ProcessStatus where
  | PENDING
  | IN_PROGRESS
  | DISPATCHED_FROM_PHARMACY
  | DELIVERED
  | COMPLETED
  | ERROR
deriving DecidableEq, Repr

/-- Workflow step enum.  The route filters on the literal string
`DEVOLUCION`; `DISPENSACION` is the other step named in the sources. -/
inductive MedicationProcessStep where
  | DISPENSACION
  | DEVOLUCION
deriving DecidableEq, Repr

/-- QR code type enum; the route accepts only
`PHARMACY_DISPATCH_DEVOLUTION`. -/
inductive QRType where
  | PHARMACY_DISPATCH_DEVOLUTION
  | PHARMACY_DISPATCH
  | DEVOLUTION_RETURN
deriving DecidableEq, Repr

/-- A JSON value arriving in the request body.  The route reads
`temperature` straight out of `request.json()`, so the value may be a
number or any other JSON value such as a string. -/
inductive JsonValue where
  | num (n : Int)
  | str (s : String)
deriving DecidableEq, Repr

/-- Row of the `profiles` table (`prisma.profile`). -/
structure Profile where
  id : String
  userId : String
deriving DecidableEq, Repr

/-- Row of the `lines` table (`prisma.line`). -/
structure Line where
  id : String
  displayName : String
deriving DecidableEq, Repr

/-- Row of the services table: each service belongs to one line
(the route filters `patient.service.lineId`). -/
structure Service where
  id : String
  lineId : String
deriving DecidableEq, Repr

/-- Row of the `patients` table; each patient belongs to one service. -/
structure Patient where
  id : String
  serviceId : String
deriving DecidableEq, Repr

/-- Row of the medication-process table (`prisma.medicationProcess`). -/
structure MedicationProcess where
  id : String
  patientId : String
  dailyProcessId : String
  step : MedicationProcessStep
  status : ProcessStatus
  updatedAt : Nat
deriving DecidableEq, Repr

/-- Row of the QR-code registry (`prisma.qRCode`). -/
structure QRCode where
  id : String
  qrId : String
  isActive : Bool
  type : QRType
deriving DecidableEq, Repr

/-- Row of the daily-process table (`prisma.dailyProcess`).  `date` and
`createdAt` are timestamps in milliseconds. -/
structure DailyProcess where
  id : String
  date : Nat
  createdAt : Nat
deriving DecidableEq, Repr

/-- Row of the scan-receipt table (`prisma.qRScanRecord`), with exactly
the fields the route writes. -/
structure QRScanRecord where
  patientId : String
  qrCodeId : String
  scannedBy : String
  dailyProcessId : String
  temperature : JsonValue
  destinationLineId : String
  transactionType : String
  scannedAt : Nat
deriving DecidableEq, Repr

/-- Snapshot of the database tables the route touches. -/
structure Store where
  profiles : List Profile
  lines : List Line
  services : List Service
  patients : List Patient
  qrCodes : List QRCode
  dailyProcesses : List DailyProcess
  medicationProcesses : List MedicationProcess
  scanRecords : List QRScanRecord
deriving DecidableEq, Repr

/-- The request as the handler sees it: the resolved session (`none`
models a session error or an absent user) and the four body fields of
`request.json()`.  `none` on a body field models a missing/undefined or
null field. -/
structure ScanRequest where
  auth : Option String
  qrId : Option String
  temperature : Option JsonValue
  destinationLineId : Option String
  transactionType : Option String
deriving DecidableEq, Repr

/-- The early-return failures of the handler, in source order. -/
inductive DispatchError where
  | unauthorized
  | profileNotFound
  | missingQrId
  | missingTemperature
  | missingDestinationLine
  | missingTransactionType
  | invalidDestinationLine
  | invalidToken
  | noActiveBatch
deriving DecidableEq, Repr

/-- The handler outcome: an early failure, the batch-level
`No hay pacientes con proceso de devolución activo` failure carrying the
line display name, or the success payload (patientsCount, selectedLine,
nextStep). -/
inductive DispatchResult where
  | failure (e : DispatchError)
  | noEligibleProcesses (lineName : String)
  | success (count : Nat) (lineName : String) (nextStep : String)
deriving DecidableEq, Repr

/-- The constant `nextStep` string of the success response. -/
def nextStepHint : String :=
  "Escanear QR de Salida de Farmacia (Entregas) para completar el proceso de devolución"

/-- JavaScript falsiness check used by the handler on the string body
fields (`!qrId`, `!destinationLineId`, `!transactionType`): missing and
empty strings are both falsy. -/
def blankField : Option String → Bool
  | none => true
  | some s => s == ""

/-- Milliseconds per day. -/
def msPerDay : Nat := 86400000

/-- Start of the current calendar day (`new Date().setHours(0,0,0,0)`),
with the day modelled as a fixed-length window of the timeline. -/
def dayStart (now : Nat) : Nat := now - now % msPerDay

/-- The date window of the `dailyProcess.findFirst` query:
`gte` start of day and `lt` 23:59:59.999 of the same day (the query uses
a strict `lt`, so the final millisecond of the day is excluded). -/
def inToday (now : Nat) (d : DailyProcess) : Bool :=
  dayStart now ≤ d.date && d.date < dayStart now + (msPerDay - 1)

/-- `findFirst` with `orderBy: createdAt desc`: among the candidate
rows, the one with the greatest `createdAt` (the earliest such row on a
tie). -/
def pickLatest : List DailyProcess → Option DailyProcess
  | [] => none
  | d :: ds => some (ds.foldl (fun acc x => if acc.createdAt < x.createdAt then x else acc) d)

/-- The in-range daily processes of the `findFirst` query. -/
def todaysDailyProcesses (dps : List DailyProcess) (now : Nat) : List DailyProcess :=
  dps.filter (inToday now)

/-- The `prisma.dailyProcess.findFirst` call of the handler. -/
def findCurrentDailyProcess (dps : List DailyProcess) (now : Nat) : Option DailyProcess :=
  pickLatest (todaysDailyProcesses dps now)

/-- The data the handler has in scope once every early validation has
passed: the caller, the body fields, and the resolved line, QR code and
daily process. -/
structure Ctx where
  userId : String
  qrIdStr : String
  temperature : JsonValue
  lineId : String
  transactionType : String
  selectedLine : Line
  qrCode : QRCode
  dp : DailyProcess
deriving DecidableEq, Repr

/-- An early error response on a missing lookup result. -/
def ofOption {α : Type} (o : Option α) (e : DispatchError) : Except DispatchError α :=
  match o with
  | some a => .ok a
  | none => .error e

/-- An early error response guarded by a boolean condition. -/
def guardErr (b : Bool) (e : DispatchError) : Except DispatchError Unit :=
  if b then .error e else .ok ()

/-- Lines 9-78 of the handler: session, profile lookup, body-field
presence checks, line lookup, QR lookup and validity, daily-process
lookup — each early `return` of an error response modelled as an
`Except` error, in exactly the source order.  Parametrised on the four
tables it reads so that it is definitionally unaffected by writes to
the other tables. -/
def resolveCtxAux (profiles : List Profile) (lines : List Line)
    (qrCodes : List QRCode) (dps : List DailyProcess)
    (req : ScanRequest) (now : Nat) : Except DispatchError Ctx := do
  let uid ← ofOption req.auth .unauthorized
  let _ ← ofOption (profiles.find? (fun pr => pr.userId == uid)) .profileNotFound
  let _ ← guardErr (blankField req.qrId) .missingQrId
  let temp ← ofOption req.temperature .missingTemperature
  let _ ← guardErr (blankField req.destinationLineId) .missingDestinationLine
  let _ ← guardErr (blankField req.transactionType) .missingTransactionType
  let q := req.qrId.getD ""
  let lid := req.destinationLineId.getD ""
  let tt := req.transactionType.getD ""
  let selectedLine ← ofOption (lines.find? (fun l => l.id == lid)) .invalidDestinationLine
  let qrCode ← ofOption (qrCodes.find? (fun qc => qc.qrId == q)) .invalidToken
  let _ ← guardErr (!qrCode.isActive || qrCode.type != QRType.PHARMACY_DISPATCH_DEVOLUTION)
      .invalidToken
  let dp ← ofOption (findCurrentDailyProcess dps now) .noActiveBatch
  return ⟨uid, q, temp, lid, tt, selectedLine, qrCode, dp⟩

/-- Context resolution of the handler against a store snapshot. -/
def resolveCtx (s : Store) (req : ScanRequest) (now : Nat) : Except DispatchError Ctx :=
  resolveCtxAux s.profiles s.lines s.qrCodes s.dailyProcesses req now

/-- The line of a patient, through its service
(the relation filter `patient: { service: { lineId } }`). -/
def lineOfPatient (patients : List Patient) (services : List Service)
    (pid : String) : Option String :=
  match patients.find? (fun p => p.id == pid) with
  | none => none
  | some p =>
    match services.find? (fun sv => sv.id == p.serviceId) with
    | none => none
    | some sv => some sv.lineId

/-- The `where` clause of the `medicationProcess.findMany` call:
current batch, step DEVOLUCION, status IN_PROGRESS, and the patient on
the destination line. -/
def eligiblePred (patients : List Patient) (services : List Service)
    (dpId lineId : String) (p : MedicationProcess) : Bool :=
  p.dailyProcessId == dpId && p.step == MedicationProcessStep.DEVOLUCION &&
    p.status == ProcessStatus.IN_PROGRESS &&
    lineOfPatient patients services p.patientId == some lineId

/-- The eligible set returned by the `findMany` call. -/
def eligibleSet (s : Store) (dpId lineId : String) : List MedicationProcess :=
  s.medicationProcesses.filter (eligiblePred s.patients s.services dpId lineId)

/-- The write made by one `medicationProcess.update` call on the row it
hits: status becomes DISPATCHED_FROM_PHARMACY and `updatedAt` is
refreshed. -/
def markDispatched (now : Nat) (p : MedicationProcess) : MedicationProcess :=
  { p with status := ProcessStatus.DISPATCHED_FROM_PHARMACY, updatedAt := now }

/-- One `prisma.medicationProcess.update({ where: { id }, data: ... })`
call: an unconditional write keyed only by the row id — the `where`
clause names no expected prior status. -/
def updateProcessById (procs : List MedicationProcess) (pid : String)
    (now : Nat) : List MedicationProcess :=
  procs.map (fun p => if p.id == pid then markDispatched now p else p)

/-- The `Promise.all` batch of update calls (lines 116-138): one
`updateProcessById` per process captured in the eligible snapshot. -/
def runUpdates (procs : List MedicationProcess)
    (eligible : List MedicationProcess) (now : Nat) : List MedicationProcess :=
  eligible.foldl (fun acc e => updateProcessById acc e.id now) procs

/-- One `qRScanRecord.create` call (lines 141-156). -/
def mkScanRecord (c : Ctx) (now : Nat) (p : MedicationProcess) : QRScanRecord :=
  { patientId := p.patientId
    qrCodeId := c.qrCode.id
    scannedBy := c.userId
    dailyProcessId := c.dp.id
    temperature := c.temperature
    destinationLineId := c.lineId
    transactionType := c.transactionType
    scannedAt := now }

/-- The store after the update batch alone has committed.  In the
handler each `update` is its own awaited Prisma call (its own
transaction); the whole update `Promise.all` resolves — every update
committed — before the scan-record `Promise.all` begins, so this store
is a reachable committed state of the database. -/
def updatesOnlyPhase (s : Store) (eligible : List MedicationProcess)
    (now : Nat) : Store :=
  { s with medicationProcesses := runUpdates s.medicationProcesses eligible now }

/-- The store after both write batches: the update batch followed by
the scan-record batch. -/
def commitPhase (s : Store) (c : Ctx) (eligible : List MedicationProcess)
    (now : Nat) : Store :=
  { s with
    medicationProcesses := runUpdates s.medicationProcesses eligible now
    scanRecords := s.scanRecords ++ eligible.map (mkScanRecord c now) }

/-- The `POST` handler of
`src/app/api/qr-scan/pharmacy-dispatch-devolution/route.ts`, as a
function from a store snapshot, the request and the clock to the
response and the resulting store. -/
def POST (s : Store) (req : ScanRequest) (now : Nat) : DispatchResult × Store :=
  match resolveCtx s req now with
  | .error e => (.failure e, s)
  | .ok c =>
    let eligible := eligibleSet s c.dp.id c.lineId
    if eligible.isEmpty then
      (.noEligibleProcesses c.selectedLine.displayName, s)
    else
      (.success eligible.length c.selectedLine.displayName nextStepHint,
        commitPhase s c eligible now)

/-- The committed store when execution stops between the two write
batches (for example the scan-record batch throws, or the client
disconnects after the update batch resolved): every status update has
committed, no scan record has been written. -/
def interruptedPOST (s : Store) (req : ScanRequest) (now : Nat) : Store :=
  match resolveCtx s req now with
  | .error _ => s
  | .ok c =>
    let eligible := eligibleSet s c.dp.id c.lineId
    if eligible.isEmpty then s
    else updatesOnlyPhase s eligible now

/-- Two overlapping calls of the handler with the same request, in the
interleaving where both `findMany` reads resolve against the same
snapshot before either write batch starts: call B then commits both its
batches, after which call A — still holding its earlier eligible
snapshot — commits both of its batches.  Each per-row `update` is
unconditional, so nothing stops call A from re-running the writes. -/
def racedPOST (s : Store) (req : ScanRequest) (now : Nat) : Store :=
  match resolveCtx s req now with
  | .error _ => s
  | .ok c =>
    let eligible := eligibleSet s c.dp.id c.lineId
    if eligible.isEmpty then s
    else commitPhase (commitPhase s c eligible now) c eligible now

/-! ### Concrete fixtures -/

/-- A clock inside day 100 of the timeline. -/
def cNow : Nat := 100 * msPerDay + 5000

/-- A store with three eligible patients on line 2, several ineligible
processes, and two daily processes created today. -/
def cStore : Store :=
  { profiles := [⟨"prof1", "u1"⟩]
    lines := [⟨"line1", "Línea 1"⟩, ⟨"line2", "Línea 2"⟩, ⟨"line3", "Línea 3"⟩]
    services := [⟨"sv1", "line1"⟩, ⟨"sv2", "line2"⟩, ⟨"sv3", "line3"⟩]
    patients := [⟨"p1", "sv2"⟩, ⟨"p2", "sv2"⟩, ⟨"p3", "sv2"⟩, ⟨"p4", "sv1"⟩]
    qrCodes := [⟨"qrc1", "QR-DEV-1", true, .PHARMACY_DISPATCH_DEVOLUTION⟩,
                ⟨"qrc2", "QR-BAD", false, .PHARMACY_DISPATCH_DEVOLUTION⟩]
    dailyProcesses := [⟨"d0", 100 * msPerDay + 2000, 50⟩,
                       ⟨"d1", 100 * msPerDay + 1000, 100⟩,
                       ⟨"dold", 99 * msPerDay + 500, 10⟩]
    medicationProcesses :=
      [⟨"m1", "p1", "d1", .DEVOLUCION, .IN_PROGRESS, 0⟩,
       ⟨"m2", "p2", "d1", .DEVOLUCION, .IN_PROGRESS, 0⟩,
       ⟨"m3", "p3", "d1", .DEVOLUCION, .IN_PROGRESS, 0⟩,
       ⟨"m4", "p1", "d1", .DISPENSACION, .IN_PROGRESS, 0⟩,
       ⟨"m5", "p2", "d1", .DEVOLUCION, .COMPLETED, 0⟩,
       ⟨"m6", "p4", "d1", .DEVOLUCION, .IN_PROGRESS, 0⟩,
       ⟨"m7", "p1", "d0", .DEVOLUCION, .IN_PROGRESS, 0⟩]
    scanRecords := [] }

/-- A request that passes every validation against `cStore`. -/
def cReq : ScanRequest :=
  { auth := some "u1"
    qrId := some "QR-DEV-1"
    temperature := some (.num 5)
    destinationLineId := some "line2"
    transactionType := some "ENTREGA" }

/-- The context `cStore`/`cReq` resolves to. -/
def cCtx : Ctx :=
  { userId := "u1"
    qrIdStr := "QR-DEV-1"
    temperature := .num 5
    lineId := "line2"
    transactionType := "ENTREGA"
    selectedLine := ⟨"line2", "Línea 2"⟩
    qrCode := ⟨"qrc1", "QR-DEV-1", true, .PHARMACY_DISPATCH_DEVOLUTION⟩
    dp := ⟨"d1", 100 * msPerDay + 1000, 100⟩ }

/-- A minimal store with exactly one eligible process. -/
def cStore1 : Store :=
  { profiles := [⟨"prof1", "u1"⟩]
    lines := [⟨"line2", "Línea 2"⟩]
    services := [⟨"sv2", "line2"⟩]
    patients := [⟨"p1", "sv2"⟩]
    qrCodes := [⟨"qrc1", "QR-DEV-1", true, .PHARMACY_DISPATCH_DEVOLUTION⟩]
    dailyProcesses := [⟨"d1", 100 * msPerDay + 1000, 100⟩]
    medicationProcesses := [⟨"m1", "p1", "d1", .DEVOLUCION, .IN_PROGRESS, 0⟩]
    scanRecords := [] }

deriving instance DecidableEq for Except

example : resolveCtx cStore cReq cNow = .ok cCtx := by decide
example : eligibleSet cStore "d1" "line2" =
    [⟨"m1", "p1", "d1", .DEVOLUCION, .IN_PROGRESS, 0⟩,
     ⟨"m2", "p2", "d1", .DEVOLUCION, .IN_PROGRESS, 0⟩,
     ⟨"m3", "p3", "d1", .DEVOLUCION, .IN_PROGRESS, 0⟩] := by decide
example : (POST cStore cReq cNow).1 = .success 3 "Línea 2" nextStepHint := by decide
example : (POST cStore1 cReq cNow).1 = .success 1 "Línea 2" nextStepHint := by decide
example : (interruptedPOST cStore1 cReq cNow).scanRecords = [] := by decide
example : (racedPOST cStore1 cReq cNow).scanRecords.length = 2 := by decide

/-! ### Structural lemmas about the write phases -/

theorem markDispatched_idem (now : Nat) (p : MedicationProcess) :
    markDispatched now (markDispatched now p) = markDispatched now p := rfl

/-- The update batch, characterised pointwise: a row is rewritten
exactly when its id occurs in the eligible snapshot. -/
theorem runUpdates_eq_map (eligible procs : List MedicationProcess) (now : Nat) :
    runUpdates procs eligible now =
      procs.map (fun p =>
        if p.id ∈ eligible.map (fun e => e.id) then markDispatched now p else p) := by
  induction eligible generalizing procs with
  | nil => simp [runUpdates]
  | cons e es ih =>
    have hstep : runUpdates procs (e :: es) now =
        runUpdates (updateProcessById procs e.id now) es now := rfl
    rw [hstep, ih, updateProcessById, List.map_map]
    refine List.map_congr_left ?_
    intro p _
    by_cases h1 : p.id = e.id
    · by_cases h2 : p.id ∈ es.map (fun e => e.id) <;>
        simp [Function.comp, h1, h2, markDispatched]
    · by_cases h2 : p.id ∈ es.map (fun e => e.id) <;>
        simp [Function.comp, h1, h2]

theorem runUpdates_length (eligible procs : List MedicationProcess) (now : Nat) :
    (runUpdates procs eligible now).length = procs.length := by
  rw [runUpdates_eq_map]; simp

/-- After the update batch has run over the eligible snapshot, no row of
the table satisfies the eligibility predicate any more. -/
theorem eligible_after_runUpdates (patients : List Patient) (services : List Service)
    (dpId lineId : String) (procs : List MedicationProcess) (now : Nat) :
    (runUpdates procs (procs.filter (eligiblePred patients services dpId lineId)) now).filter
      (eligiblePred patients services dpId lineId) = [] := by
  rw [runUpdates_eq_map, List.filter_eq_nil_iff]
  intro a ha
  rw [List.mem_map] at ha
  obtain ⟨p, hp, rfl⟩ := ha
  by_cases h : p.id ∈ (procs.filter (eligiblePred patients services dpId lineId)).map
      (fun e => e.id)
  · rw [if_pos h]
    simp [eligiblePred, markDispatched]
  · rw [if_neg h]
    intro hpred
    exact h (List.mem_map.mpr ⟨p, List.mem_filter.mpr ⟨hp, hpred⟩, rfl⟩)

/-- The fold behind `pickLatest` returns an element of `a :: l` whose
`createdAt` dominates every element of `a :: l`. -/
theorem foldl_latest_spec (l : List DailyProcess) (a : DailyProcess) :
    (l.foldl (fun acc x => if acc.createdAt < x.createdAt then x else acc) a) ∈ a :: l ∧
    ∀ x ∈ a :: l,
      x.createdAt ≤
        (l.foldl (fun acc x => if acc.createdAt < x.createdAt then x else acc) a).createdAt := by
  induction l generalizing a with
  | nil => simp
  | cons e es ih =>
    simp only [List.foldl_cons]
    by_cases h : a.createdAt < e.createdAt
    · rw [if_pos h]
      obtain ⟨hmem, hall⟩ := ih e
      constructor
      · exact List.mem_cons_of_mem a hmem
      · intro x hx
        rcases List.mem_cons.mp hx with rfl | hx2
        · exact Nat.le_trans (Nat.le_of_lt h) (hall e (by simp))
        · exact hall x hx2
    · rw [if_neg h]
      obtain ⟨hmem, hall⟩ := ih a
      constructor
      · rcases List.mem_cons.mp hmem with h1 | h1
        · simp [h1]
        · simp [List.mem_cons, h1]
      · intro x hx
        rcases List.mem_cons.mp hx with rfl | hx2
        · exact hall x (by simp)
        · rcases List.mem_cons.mp hx2 with rfl | hx3
          · exact Nat.le_trans (Nat.le_of_not_lt h) (hall a (by simp))
          · exact hall x (by simp [hx3])

/-- `pickLatest` returns a member of maximal `createdAt`. -/
theorem pickLatest_spec (l : List DailyProcess) (d : DailyProcess)
    (h : pickLatest l = some d) :
    d ∈ l ∧ ∀ x ∈ l, x.createdAt ≤ d.createdAt := by
  match l with
  | [] => exact absurd h (by simp [pickLatest])
  | a :: as =>
    obtain ⟨hmem, hall⟩ := foldl_latest_spec as a
    have hd : as.foldl (fun acc x => if acc.createdAt < x.createdAt then x else acc) a = d := by
      simpa [pickLatest] using h
    exact ⟨hd ▸ hmem, fun x hx => hd ▸ hall x hx⟩

/-! ### Inversion lemmas -/

/-- Peeling one step of the early-return chain. -/
theorem bindOkInv {α β : Type} {m : Except DispatchError α}
    {f : α → Except DispatchError β} {b : β}
    (h : (m >>= f) = .ok b) : ∃ a, m = .ok a ∧ f a = .ok b := by
  cases m with
  | error e => exact absurd h (by simp [Bind.bind, Except.bind])
  | ok a => exact ⟨a, rfl, by simpa [Bind.bind, Except.bind] using h⟩

/-- Inversion of a successful `ofOption` step. -/
theorem ofOptionOkInv {α : Type} {o : Option α} {e : DispatchError} {a : α}
    (h : ofOption o e = .ok a) : o = some a := by
  cases o with
  | none => exact absurd h (by simp [ofOption])
  | some x => simpa [ofOption] using h

/-- A successfully resolved context carries exactly the daily process
that `findFirst` selected. -/
theorem resolveCtx_ok_findDp (profiles : List Profile) (lines : List Line)
    (qrCodes : List QRCode) (dps : List DailyProcess) (req : ScanRequest)
    (now : Nat) (c : Ctx)
    (h : resolveCtxAux profiles lines qrCodes dps req now = .ok c) :
    findCurrentDailyProcess dps now = some c.dp := by
  unfold resolveCtxAux at h
  obtain ⟨uid, hu, h⟩ := bindOkInv h
  obtain ⟨pr, hpr, h⟩ := bindOkInv h
  obtain ⟨u1, hq, h⟩ := bindOkInv h
  obtain ⟨temp, ht, h⟩ := bindOkInv h
  obtain ⟨u2, hd, h⟩ := bindOkInv h
  obtain ⟨u3, htt, h⟩ := bindOkInv h
  obtain ⟨sl, hl, h⟩ := bindOkInv h
  obtain ⟨qc, hqr, h⟩ := bindOkInv h
  obtain ⟨u4, hact, h⟩ := bindOkInv h
  obtain ⟨dp, hdp, h⟩ := bindOkInv h
  have hc : (⟨uid, req.qrId.getD "", temp, req.destinationLineId.getD "",
      req.transactionType.getD "", sl, qc, dp⟩ : Ctx) = c := by
    simpa [Pure.pure, Except.pure] using h
  subst hc
  exact ofOptionOkInv hdp

/-- Inversion of a success response of the handler. -/
theorem POST_success_inv (s : Store) (req : ScanRequest) (now : Nat)
    (n : Nat) (nm hint : String) (s1 : Store)
    (h : POST s req now = (.success n nm hint, s1)) :
    ∃ c, resolveCtx s req now = .ok c ∧
      (eligibleSet s c.dp.id c.lineId).isEmpty = false ∧
      n = (eligibleSet s c.dp.id c.lineId).length ∧
      nm = c.selectedLine.displayName ∧ hint = nextStepHint ∧
      s1 = commitPhase s c (eligibleSet s c.dp.id c.lineId) now := by
  unfold POST at h
  split at h
  · exact absurd h (by simp)
  · rename_i c hres
    by_cases hemp : (eligibleSet s c.dp.id c.lineId).isEmpty
    · rw [if_pos hemp] at h
      exact absurd h (by simp)
    · rw [if_neg hemp] at h
      injection h with h1 h2
      injection h1 with ha hb hc
      exact ⟨c, hres, by simpa using hemp, ha.symm, hb.symm, hc.symm, h2.symm⟩

/-! ### Claim theorems -/

/-- C4: for every store state in which the eligible set (current batch,
step DEVOLUCION, status IN_PROGRESS, destination line) is empty, the
dispatch call fails with the no-eligible-processes outcome carrying the
line display name, and the store is left completely unchanged. -/
theorem dispatch_empty_eligible_unchanged (s : Store) (req : ScanRequest)
    (now : Nat) (c : Ctx)
    (hctx : resolveCtx s req now = .ok c)
    (hemp : eligibleSet s c.dp.id c.lineId = []) :
    POST s req now = (.noEligibleProcesses c.selectedLine.displayName, s) := by
  simp [POST, hctx, hemp]

/-- A request aimed at line 3, on which `cStore` has no eligible
patients. -/
def cReqLine3 : ScanRequest := { cReq with destinationLineId := some "line3" }

/-- The context `cStore`/`cReqLine3` resolves to. -/
def cCtxLine3 : Ctx :=
  { cCtx with lineId := "line3", selectedLine := ⟨"line3", "Línea 3"⟩ }

/-- Witness for C4 at a concrete store and request. -/
theorem dispatch_empty_eligible_unchanged_witness :
    POST cStore cReqLine3 cNow = (.noEligibleProcesses "Línea 3", cStore) :=
  dispatch_empty_eligible_unchanged cStore cReqLine3 cNow cCtxLine3
    (by decide) (by decide)

/-- C9: for every caller whose session resolves to an authenticated
identity but for whom no Profile record exists, the dispatch call fails
with the distinct profile-not-found outcome and no store mutation
occurs. -/
theorem dispatch_profile_not_found (s : Store) (req : ScanRequest) (now : Nat)
    (uid : String)
    (hauth : req.auth = some uid)
    (hprof : s.profiles.find? (fun pr => pr.userId == uid) = none) :
    POST s req now = (.failure .profileNotFound, s) := by
  have hres : resolveCtx s req now = .error .profileNotFound := by
    simp [resolveCtx, resolveCtxAux, hauth, hprof, ofOption, Bind.bind, Except.bind]
  simp [POST, hres]

/-- `cStore` with the profile table emptied. -/
def cStoreNoProfile : Store := { cStore with profiles := [] }

/-- Witness for C9 at a concrete store and request. -/
theorem dispatch_profile_not_found_witness :
    POST cStoreNoProfile cReq cNow = (.failure .profileNotFound, cStoreNoProfile) :=
  dispatch_profile_not_found cStoreNoProfile cReq cNow "u1" (by decide) (by decide)

/-- C5: frame property — a MedicationProcess record outside the
eligible set (different batch, different step, different status, or a
patient on a different line) is left unchanged by the dispatch call. -/
theorem dispatch_frame (s : Store) (req : ScanRequest) (now : Nat) (c : Ctx)
    (hctx : resolveCtx s req now = .ok c)
    (hnd : (s.medicationProcesses.map (fun p => p.id)).Nodup)
    (i : Nat) (hi : i < s.medicationProcesses.length)
    (hmis : (s.medicationProcesses[i]).dailyProcessId ≠ c.dp.id
      ∨ (s.medicationProcesses[i]).step ≠ MedicationProcessStep.DEVOLUCION
      ∨ (s.medicationProcesses[i]).status ≠ ProcessStatus.IN_PROGRESS
      ∨ lineOfPatient s.patients s.services
          (s.medicationProcesses[i]).patientId ≠ some c.lineId) :
    (POST s req now).2.medicationProcesses[i]?
      = some (s.medicationProcesses[i]) := by
  have hnotelig : eligiblePred s.patients s.services c.dp.id c.lineId
      (s.medicationProcesses[i]) = false := by
    rcases hmis with hm | hm | hm | hm <;> simp [eligiblePred, hm]
  by_cases hemp : (eligibleSet s c.dp.id c.lineId).isEmpty = true
  · have hpost : (POST s req now).2 = s := by simp [POST, hctx, hemp]
    rw [hpost]
    exact List.getElem?_eq_getElem hi
  · have hpost : (POST s req now).2
        = commitPhase s c (eligibleSet s c.dp.id c.lineId) now := by
      simp [POST, hctx, hemp]
    rw [hpost]
    have hnotin : (s.medicationProcesses[i]).id
        ∉ (eligibleSet s c.dp.id c.lineId).map (fun e => e.id) := by
      intro hin
      obtain ⟨q, hq, hqid⟩ := List.mem_map.mp hin
      obtain ⟨hq1, hq2⟩ := List.mem_filter.mp hq
      have hqeq : q = s.medicationProcesses[i] :=
        List.inj_on_of_nodup_map hnd hq1
          (List.getElem_mem hi) hqid
      rw [hqeq, hnotelig] at hq2
      exact Bool.false_ne_true hq2
    show (commitPhase s c (eligibleSet s c.dp.id c.lineId) now).medicationProcesses[i]? = _
    simp only [commitPhase, runUpdates_eq_map, List.getElem?_map,
      List.getElem?_eq_getElem hi]
    rw [Option.map_some', if_neg hnotin]

/-- Witness for C5: the wrong-step record `m4` of `cStore` (index 3) is
untouched by a dispatch that transitions the three eligible records. -/
theorem dispatch_frame_witness :
    (POST cStore cReq cNow).2.medicationProcesses[3]?
      = some ⟨"m4", "p1", "d1", .DISPENSACION, .IN_PROGRESS, 0⟩ :=
  dispatch_frame cStore cReq cNow cCtx (by decide) (by decide) 3 (by decide)
    (Or.inr (Or.inl (by decide)))

/-- C7: a successful dispatch over a non-empty eligible set of n records
reports count n, the resolved line display name and the constant
next-step hint; it appends exactly n scan records and every eligible
record ends in status DISPATCHED_FROM_PHARMACY. -/
theorem dispatch_success_report (s : Store) (req : ScanRequest) (now : Nat)
    (c : Ctx)
    (hctx : resolveCtx s req now = .ok c)
    (hne : (eligibleSet s c.dp.id c.lineId).isEmpty = false) :
    (POST s req now).1 = .success (eligibleSet s c.dp.id c.lineId).length
        c.selectedLine.displayName nextStepHint
    ∧ (POST s req now).2.scanRecords.length
        = s.scanRecords.length + (eligibleSet s c.dp.id c.lineId).length
    ∧ ∀ i, (hi : i < s.medicationProcesses.length) →
        eligiblePred s.patients s.services c.dp.id c.lineId
          (s.medicationProcesses[i]) = true →
        ((POST s req now).2.medicationProcesses[i]?).map (fun p => p.status)
          = some ProcessStatus.DISPATCHED_FROM_PHARMACY := by
  have hpost : POST s req now
      = (.success (eligibleSet s c.dp.id c.lineId).length
          c.selectedLine.displayName nextStepHint,
         commitPhase s c (eligibleSet s c.dp.id c.lineId) now) := by
    simp [POST, hctx, hne]
  refine ⟨by rw [hpost], ?_, ?_⟩
  · rw [hpost]
    simp [commitPhase]
  · intro i hi hpred
    rw [hpost]
    have hin : (s.medicationProcesses[i]).id
        ∈ (eligibleSet s c.dp.id c.lineId).map (fun e => e.id) :=
      List.mem_map.mpr
        ⟨s.medicationProcesses[i],
         List.mem_filter.mpr ⟨List.getElem_mem hi, hpred⟩, rfl⟩
    show ((commitPhase s c (eligibleSet s c.dp.id c.lineId) now
        ).medicationProcesses[i]?).map (fun p => p.status) = _
    simp only [commitPhase, runUpdates_eq_map, List.getElem?_map,
      List.getElem?_eq_getElem hi]
    rw [Option.map_some', if_pos hin]
    rfl

/-- Witness for C7: the three-patient scenario on line 2 of `cStore`:
count 3, three receipts appended, and the first eligible record (index
0) ends DISPATCHED_FROM_PHARMACY. -/
theorem dispatch_success_report_witness :
    (eligibleSet cStore cCtx.dp.id cCtx.lineId).length = 3
    ∧ ((POST cStore cReq cNow).1
        = .success (eligibleSet cStore cCtx.dp.id cCtx.lineId).length
            cCtx.selectedLine.displayName nextStepHint
      ∧ (POST cStore cReq cNow).2.scanRecords.length
          = cStore.scanRecords.length + (eligibleSet cStore cCtx.dp.id cCtx.lineId).length
      ∧ ∀ i, (hi : i < cStore.medicationProcesses.length) →
          eligiblePred cStore.patients cStore.services cCtx.dp.id cCtx.lineId
            (cStore.medicationProcesses[i]) = true →
          ((POST cStore cReq cNow).2.medicationProcesses[i]?).map (fun p => p.status)
            = some ProcessStatus.DISPATCHED_FROM_PHARMACY) :=
  ⟨by decide, dispatch_success_report cStore cReq cNow cCtx (by decide) (by decide)⟩

/-- C3: dispatch is idempotent over the eligible set — after a
successful dispatch, repeating the same request against the resulting
store finds no eligible records (they are no longer IN_PROGRESS) and
fails with the no-eligible-processes outcome, leaving the store
unchanged. -/
theorem dispatch_idempotent (s : Store) (req : ScanRequest) (now : Nat)
    (n : Nat) (nm hint : String) (s1 : Store)
    (h : POST s req now = (.success n nm hint, s1)) :
    POST s1 req now = (.noEligibleProcesses nm, s1) := by
  obtain ⟨c, hres, hemp, hn, hnm, hhint, hs1⟩ := POST_success_inv s req now n nm hint s1 h
  subst hs1
  subst hnm
  have hres1 : resolveCtx (commitPhase s c (eligibleSet s c.dp.id c.lineId) now) req now
      = .ok c := hres
  have hempty : eligibleSet (commitPhase s c (eligibleSet s c.dp.id c.lineId) now)
      c.dp.id c.lineId = [] := by
    show (runUpdates s.medicationProcesses
        (s.medicationProcesses.filter
          (eligiblePred s.patients s.services c.dp.id c.lineId)) now).filter
        (eligiblePred s.patients s.services c.dp.id c.lineId) = []
    exact eligible_after_runUpdates s.patients s.services c.dp.id c.lineId
      s.medicationProcesses now
  simp [POST, hres1, hempty]

/-- Witness for C3: running the dispatch twice on `cStore`; the second
call reports no eligible processes and changes nothing. -/
theorem dispatch_idempotent_witness :
    POST (POST cStore cReq cNow).2 cReq cNow
      = (.noEligibleProcesses "Línea 2", (POST cStore cReq cNow).2) :=
  dispatch_idempotent cStore cReq cNow 3 "Línea 2" nextStepHint
    (POST cStore cReq cNow).2 (by decide)

/-- C1 counterexample: the per-record update is no compare-and-set —
it rewrites a row whose status is COMPLETED, and in the race
interleaving both calls commit over the single eligible record of
`cStore1`, leaving two scan receipts for the one patient instead of the
one receipt the claim (exactly one winner, the loser skips) allows. -/
theorem update_not_compare_and_set_counterexample :
    updateProcessById [⟨"m1", "p1", "d1", .DEVOLUCION, .COMPLETED, 5⟩] "m1" 9
      = [⟨"m1", "p1", "d1", .DEVOLUCION, .DISPATCHED_FROM_PHARMACY, 9⟩]
    ∧ (racedPOST cStore1 cReq cNow).scanRecords.length = 2
    ∧ ((racedPOST cStore1 cReq cNow).scanRecords.filter
        (fun r => r.patientId == "p1")).length = 2 := by decide

/-- C1 amended: the status transition is an unconditional update keyed
only by record id; in the interleaving where two dispatch calls both
capture the same eligible snapshot before either writes, both perform
the transition writes and both append receipts, so the store gains two
scan records per eligible record instead of one. -/
theorem raced_dispatch_double_receipts (s : Store) (req : ScanRequest)
    (now : Nat) (c : Ctx)
    (hctx : resolveCtx s req now = .ok c)
    (hne : (eligibleSet s c.dp.id c.lineId).isEmpty = false) :
    (racedPOST s req now).scanRecords.length
      = s.scanRecords.length + 2 * (eligibleSet s c.dp.id c.lineId).length := by
  simp [racedPOST, hctx, hne, commitPhase]
  omega

/-- Witness for the amended C1 on the one-record store. -/
theorem raced_dispatch_double_receipts_witness :
    (racedPOST cStore1 cReq cNow).scanRecords.length
      = cStore1.scanRecords.length + 2 * (eligibleSet cStore1 cCtx.dp.id cCtx.lineId).length :=
  raced_dispatch_double_receipts cStore1 cReq cNow cCtx (by decide) (by decide)

/-- C2 counterexample: a committed outcome in which the single eligible
record of `cStore1` has been advanced to DISPATCHED_FROM_PHARMACY while
no scan record was written — reachable because the update batch and the
scan-record batch are separate awaited groups of independent writes,
with no enclosing transaction. -/
theorem interrupted_dispatch_counterexample :
    (interruptedPOST cStore1 cReq cNow).medicationProcesses
      = [⟨"m1", "p1", "d1", .DEVOLUCION, .DISPATCHED_FROM_PHARMACY, cNow⟩]
    ∧ (interruptedPOST cStore1 cReq cNow).scanRecords = [] := by decide

/-- C2 amended: every status update commits on its own before the
scan-record batch starts, so the committed store at the commit point
between the two batches has every eligible record advanced to
DISPATCHED_FROM_PHARMACY and the scan-record table untouched; the batch
as a whole commits per record (partial success is possible). -/
theorem updates_commit_before_receipts (s : Store) (req : ScanRequest)
    (now : Nat) (c : Ctx)
    (hctx : resolveCtx s req now = .ok c)
    (hne : (eligibleSet s c.dp.id c.lineId).isEmpty = false) :
    (interruptedPOST s req now).scanRecords = s.scanRecords
    ∧ ∀ i, (hi : i < s.medicationProcesses.length) →
        eligiblePred s.patients s.services c.dp.id c.lineId
          (s.medicationProcesses[i]) = true →
        ((interruptedPOST s req now).medicationProcesses[i]?).map (fun p => p.status)
          = some ProcessStatus.DISPATCHED_FROM_PHARMACY := by
  have hpost : interruptedPOST s req now
      = updatesOnlyPhase s (eligibleSet s c.dp.id c.lineId) now := by
    simp [interruptedPOST, hctx, hne]
  refine ⟨by rw [hpost]; rfl, ?_⟩
  intro i hi hpred
  rw [hpost]
  have hin : (s.medicationProcesses[i]).id
      ∈ (eligibleSet s c.dp.id c.lineId).map (fun e => e.id) :=
    List.mem_map.mpr
      ⟨s.medicationProcesses[i],
       List.mem_filter.mpr ⟨List.getElem_mem hi, hpred⟩, rfl⟩
  show ((updatesOnlyPhase s (eligibleSet s c.dp.id c.lineId) now
      ).medicationProcesses[i]?).map (fun p => p.status) = _
  simp only [updatesOnlyPhase, runUpdates_eq_map, List.getElem?_map,
    List.getElem?_eq_getElem hi]
  rw [Option.map_some', if_pos hin]
  rfl

/-- Witness for the amended C2 on the one-record store. -/
theorem updates_commit_before_receipts_witness :
    (interruptedPOST cStore1 cReq cNow).scanRecords = cStore1.scanRecords
    ∧ ∀ i, (hi : i < cStore1.medicationProcesses.length) →
        eligiblePred cStore1.patients cStore1.services cCtx.dp.id cCtx.lineId
          (cStore1.medicationProcesses[i]) = true →
        ((interruptedPOST cStore1 cReq cNow).medicationProcesses[i]?).map (fun p => p.status)
          = some ProcessStatus.DISPATCHED_FROM_PHARMACY :=
  updates_commit_before_receipts cStore1 cReq cNow cCtx (by decide) (by decide)

/-- A request whose token is unknown and whose destination line is also
unknown. -/
def cReqBadBoth : ScanRequest :=
  { cReq with qrId := some "QR-NOPE", destinationLineId := some "line-nope" }

/-- A request with a valid line but an unknown token. -/
def cReqBadQr : ScanRequest := { cReq with qrId := some "QR-NOPE" }

/-- `cStore` with no daily process at all. -/
def cStoreNoDp : Store := { cStore with dailyProcesses := [] }

/-- C6 counterexample: for an input whose token is invalid and whose
line is also unknown, the handler reports the invalid-destination-line
failure, not the invalid-token failure the claim requires — the line is
validated before the QR entry. -/
theorem resolution_order_counterexample :
    POST cStore cReqBadBoth cNow = (.failure .invalidDestinationLine, cStore)
    ∧ cStore.qrCodes.find? (fun qc => qc.qrId == "QR-NOPE") = none
    ∧ DispatchError.invalidDestinationLine ≠ DispatchError.invalidToken := by decide

/-- C6 amended: after the body-field presence checks the handler
resolves the destination Line first (failing with the unknown-line
outcome whatever the token state), then the QR entry (failing with the
invalid-token outcome whatever the daily-process table holds), and only
then the current DailyProcess; so invalid token + unknown line reports
the unknown-line failure. -/
theorem resolution_order (s : Store) (req : ScanRequest) (now : Nat)
    (uid : String) (pr : Profile) (t : JsonValue)
    (hauth : req.auth = some uid)
    (hprof : s.profiles.find? (fun p => p.userId == uid) = some pr)
    (hq : blankField req.qrId = false)
    (ht : req.temperature = some t)
    (hd : blankField req.destinationLineId = false)
    (htt : blankField req.transactionType = false) :
    (s.lines.find? (fun l => l.id == req.destinationLineId.getD "") = none →
      POST s req now = (.failure .invalidDestinationLine, s))
    ∧ (∀ sl, s.lines.find? (fun l => l.id == req.destinationLineId.getD "") = some sl →
        s.qrCodes.find? (fun qc => qc.qrId == req.qrId.getD "") = none →
        POST s req now = (.failure .invalidToken, s)) := by
  constructor
  · intro hline
    have hres : resolveCtx s req now = .error .invalidDestinationLine := by
      simp [resolveCtx, resolveCtxAux, hauth, hprof, hq, ht, hd, htt, hline,
        ofOption, guardErr, Bind.bind, Except.bind]
    simp [POST, hres]
  · intro sl hline hqr
    have hres : resolveCtx s req now = .error .invalidToken := by
      simp [resolveCtx, resolveCtxAux, hauth, hprof, hq, ht, hd, htt, hline, hqr,
        ofOption, guardErr, Bind.bind, Except.bind]
    simp [POST, hres]

/-- Witness for the amended C6: unknown line + unknown token reports
the unknown-line failure; valid line + unknown token reports the
invalid-token failure even with an empty daily-process table. -/
theorem resolution_order_witness :
    POST cStore cReqBadBoth cNow = (.failure .invalidDestinationLine, cStore)
    ∧ POST cStoreNoDp cReqBadQr cNow = (.failure .invalidToken, cStoreNoDp) :=
  ⟨(resolution_order cStore cReqBadBoth cNow "u1" ⟨"prof1", "u1"⟩ (.num 5)
      (by decide) (by decide) (by decide) (by decide) (by decide) (by decide)).1
      (by decide),
   (resolution_order cStoreNoDp cReqBadQr cNow "u1" ⟨"prof1", "u1"⟩ (.num 5)
      (by decide) (by decide) (by decide) (by decide) (by decide) (by decide)).2
      ⟨"line2", "Línea 2"⟩ (by decide) (by decide)⟩

/-- A request whose temperature is a JSON string, not a number. -/
def cReqStrTemp : ScanRequest := { cReq with temperature := some (.str "ambiente") }

/-- A request with no temperature field. -/
def cReqNoTemp : ScanRequest := { cReq with temperature := none }

/-- A request with a valid token but an unknown destination line. -/
def cReqBadLine : ScanRequest := { cReq with destinationLineId := some "line-nope" }

/-- C8 counterexample: a non-numeric temperature value is not rejected
— the dispatch succeeds, mutates the store, and records the string
temperature into all three scan receipts. -/
theorem temperature_not_type_checked_counterexample :
    (POST cStore cReqStrTemp cNow).1 = .success 3 "Línea 2" nextStepHint
    ∧ (POST cStore cReqStrTemp cNow).2.scanRecords.length = 3
    ∧ ((POST cStore cReqStrTemp cNow).2.scanRecords.filter
        (fun r => r.temperature == JsonValue.str "ambiente")).length = 3 := by decide

/-- C8 amended: the context checks run before any mutation, but the
temperature is checked for presence only (null/undefined rejected, any
other JSON value accepted); destinationLineId must reference an
existing Line.  Both failures leave the store unchanged. -/
theorem validation_presence_only (s : Store) (req : ScanRequest) (now : Nat)
    (uid : String) (pr : Profile)
    (hauth : req.auth = some uid)
    (hprof : s.profiles.find? (fun p => p.userId == uid) = some pr)
    (hq : blankField req.qrId = false) :
    (req.temperature = none →
      POST s req now = (.failure .missingTemperature, s))
    ∧ (∀ t, req.temperature = some t →
        blankField req.destinationLineId = false →
        blankField req.transactionType = false →
        s.lines.find? (fun l => l.id == req.destinationLineId.getD "") = none →
        POST s req now = (.failure .invalidDestinationLine, s)) := by
  constructor
  · intro htemp
    have hres : resolveCtx s req now = .error .missingTemperature := by
      simp [resolveCtx, resolveCtxAux, hauth, hprof, hq, htemp,
        ofOption, guardErr, Bind.bind, Except.bind]
    simp [POST, hres]
  · intro t ht hd htt hline
    have hres : resolveCtx s req now = .error .invalidDestinationLine := by
      simp [resolveCtx, resolveCtxAux, hauth, hprof, hq, ht, hd, htt, hline,
        ofOption, guardErr, Bind.bind, Except.bind]
    simp [POST, hres]

/-- Witness for the amended C8: a missing temperature is rejected with
no mutation; so is an unknown destination line. -/
theorem validation_presence_only_witness :
    POST cStore cReqNoTemp cNow = (.failure .missingTemperature, cStore)
    ∧ POST cStore cReqBadLine cNow = (.failure .invalidDestinationLine, cStore) :=
  ⟨(validation_presence_only cStore cReqNoTemp cNow "u1" ⟨"prof1", "u1"⟩
      (by decide) (by decide) (by decide)).1 (by decide),
   (validation_presence_only cStore cReqBadLine cNow "u1" ⟨"prof1", "u1"⟩
      (by decide) (by decide) (by decide)).2 (.num 5) (by decide) (by decide)
      (by decide) (by decide)⟩

/-- C10: when several DailyProcess rows fall inside the current
calendar-day window, the handler selects one with the greatest
`createdAt` as the current batch, and every scan receipt the call
writes carries that batch id (the eligibility query uses the same
`c.dp.id`). -/
theorem current_batch_latest (s : Store) (req : ScanRequest) (now : Nat)
    (c : Ctx) (dp : DailyProcess)
    (hctx : resolveCtx s req now = .ok c)
    (hdp : findCurrentDailyProcess s.dailyProcesses now = some dp)
    (_hmulti : 1 < (todaysDailyProcesses s.dailyProcesses now).length) :
    c.dp = dp
    ∧ dp ∈ todaysDailyProcesses s.dailyProcesses now
    ∧ (∀ x ∈ todaysDailyProcesses s.dailyProcesses now, x.createdAt ≤ dp.createdAt)
    ∧ (∀ r ∈ (POST s req now).2.scanRecords,
        r ∈ s.scanRecords ∨ r.dailyProcessId = dp.id) := by
  have hcdp : findCurrentDailyProcess s.dailyProcesses now = some c.dp :=
    resolveCtx_ok_findDp s.profiles s.lines s.qrCodes s.dailyProcesses req now c hctx
  have hceq : c.dp = dp := by
    rw [hcdp] at hdp
    injection hdp
  obtain ⟨hmem, hmax⟩ := pickLatest_spec (todaysDailyProcesses s.dailyProcesses now) dp hdp
  refine ⟨hceq, hmem, hmax, ?_⟩
  intro r hr
  by_cases hemp : (eligibleSet s c.dp.id c.lineId).isEmpty = true
  · have hpost : (POST s req now).2 = s := by simp [POST, hctx, hemp]
    rw [hpost] at hr
    exact Or.inl hr
  · have hpost : (POST s req now).2
        = commitPhase s c (eligibleSet s c.dp.id c.lineId) now := by
      simp [POST, hctx, hemp]
    rw [hpost] at hr
    rcases List.mem_append.mp hr with h | h
    · exact Or.inl h
    · right
      obtain ⟨p, hp, hrec⟩ := List.mem_map.mp h
      rw [← hrec, ← hceq]
      rfl

/-- Witness for C10 on `cStore`, whose two same-day batches d0
(createdAt 50) and d1 (createdAt 100) make the handler pick d1. -/
theorem current_batch_latest_witness :
    cCtx.dp = (⟨"d1", 100 * msPerDay + 1000, 100⟩ : DailyProcess)
    ∧ (⟨"d1", 100 * msPerDay + 1000, 100⟩ : DailyProcess)
        ∈ todaysDailyProcesses cStore.dailyProcesses cNow
    ∧ (∀ x ∈ todaysDailyProcesses cStore.dailyProcesses cNow,
        x.createdAt ≤ (⟨"d1", 100 * msPerDay + 1000, 100⟩ : DailyProcess).createdAt)
    ∧ (∀ r ∈ (POST cStore cReq cNow).2.scanRecords,
        r ∈ cStore.scanRecords
        ∨ r.dailyProcessId = (⟨"d1", 100 * msPerDay + 1000, 100⟩ : DailyProcess).id) :=
  current_batch_latest cStore cReq cNow cCtx ⟨"d1", 100 * msPerDay + 1000, 100⟩
    (by decide) (by decide) (by decide)
